import Mathlib

/-!
Verification of the KreeKt Android Vulkan bridge
(`src/kreekt-gpu-android-native/src/main/cpp/vulkan_bridge.cpp`).

The development is a shallow embedding: handles (`std::uint64_t`) are `Nat`
with explicit `% 2^64` where overflow matters, the `unordered_map` registries
are association lists keyed by handle, the C++ functions become Lean
functions translated from the source, and `throw std::runtime_error`
becomes `Except.error` with a named error code.  Backend (Vulkan driver)
objects such as `VkSemaphore`, `VkFence` and `VkImage` are opaque `Nat`
tokens; calls into the driver are modelled as events or as an oracle
argument giving the driver's reply.
-/

namespace VulkanBridge

/-- `2^64`, the modulus of the C++ `std::uint64_t` handle counter `g_nextId`. -/
def U64 : Nat := 18446744073709551616

/-- `2^32`, the modulus of `uint32_t` arithmetic in `selectImageCount`. -/
def U32 : Nat := 4294967296

/-- `std::numeric_limits<uint32_t>::max()`, the "client decides" marker used
by `chooseExtent` (vulkan_bridge.cpp:436). -/
def UINT32MAX : Nat := 4294967295

/-- Boot value of the global id counter: `std::atomic<Id> g_nextId{1}`
(vulkan_bridge.cpp:32). -/
def firstId : Nat := 1

/-- `generateId` (vulkan_bridge.cpp:224-226): `g_nextId.fetch_add(1)` returns the
old counter value and stores the incremented value; the stored `uint64_t` wraps
modulo `2^64`.  The counter state is a `Nat` kept below `2^64`. -/
def generateId (next : Nat) : Nat × Nat := (next, (next + 1) % U64)

/-- A handle registry: `std::unordered_map<Id, std::unique_ptr<Object>>`
embedded as an association list from handle to owned object. -/
abbrev Registry (α : Type) : Type := List (Nat × α)

/-- Key lookup (`registry.find(id)`), first matching entry. -/
def Registry.find? {α : Type} : Registry α → Nat → Option α
  | [], _ => none
  | (k, v) :: rest, id => if k = id then some v else Registry.find? rest id

/-- Key removal (`registry.erase(it)`), first matching entry. -/
def Registry.eraseKey {α : Type} : Registry α → Nat → Registry α
  | [], _ => []
  | (k, v) :: rest, id =>
      if k = id then rest else (k, v) :: Registry.eraseKey rest id

/-- Replace the object stored at a key (mutation of `it->second` through a
reference obtained from a lookup), first matching entry. -/
def Registry.setKey {α : Type} : Registry α → Nat → α → Registry α
  | [], _, _ => []
  | (k, v) :: rest, id, newV =>
      if k = id then (id, newV) :: rest else (k, v) :: Registry.setKey rest id newV

/-- The keys held by a registry. -/
def Registry.keys {α : Type} : Registry α → List Nat
  | [] => []
  | (k, _) :: rest => k :: Registry.keys rest

/-- `storeObject` (vulkan_bridge.cpp:228-233): draw a fresh id from the global
counter and emplace the object under it.  Returns the id, the new counter
state and the new registry. -/
def storeObject {α : Type} (next : Nat) (r : Registry α) (obj : α) :
    Nat × Nat × Registry α :=
  let p := generateId next
  (p.1, p.2, (p.1, obj) :: r)

/-- `getObject` (vulkan_bridge.cpp:235-239): lookup, `nullptr` is `none`. -/
def getObject {α : Type} (r : Registry α) (id : Nat) : Option α :=
  Registry.find? r id

/-- `removeObject` (vulkan_bridge.cpp:241-248): lookup; on a miss return
`nullptr` and leave the registry unchanged, on a hit move the object out and
erase the entry. -/
def removeObject {α : Type} (r : Registry α) (id : Nat) : Option α × Registry α :=
  match Registry.find? r id with
  | none => (none, r)
  | some v => (some v, Registry.eraseKey r id)

/-! ### C1: sequences of creates

Every create operation in the bridge registers each constructed object with
`storeObject`, which draws ids from the single counter via `generateId`; the
handle returned to the caller is one of the ids drawn during the call (for
example `createSwapchainInternal` first draws two ids per image for the
texture and view entries and returns the id drawn last for the swapchain
itself, vulkan_bridge.cpp:1057-1130).  A create call is therefore abstracted
by the number of ids drawn before and after the returned one. -/

/-- Shape of one create call: `pre` ids are drawn before the returned id and
`post` after it, each by one `generateId` call. -/
structure CreateShape where
  pre : Nat
  post : Nat

/-- Total number of `generateId` calls a create call performs. -/
def CreateShape.cost (s : CreateShape) : Nat := s.pre + 1 + s.post

/-- Draw `k` ids in sequence from the counter, discarding them. -/
def consumeIds : Nat → Nat → Nat
  | next, 0 => next
  | next, k + 1 => consumeIds (generateId next).2 k

/-- Run one create call against the counter: draw `pre` ids, draw the returned
id, draw `post` ids.  Yields the returned handle and the new counter state. -/
def runCreate (next : Nat) (s : CreateShape) : Nat × Nat :=
  let nextPre := consumeIds next s.pre
  let p := generateId nextPre
  (p.1, consumeIds p.2 s.post)

/-- Run a sequence of create calls, collecting the returned handles. -/
def runCreates : Nat → List CreateShape → List Nat × Nat
  | next, [] => ([], next)
  | next, s :: rest =>
      ((runCreate next s).1 :: (runCreates (runCreate next s).2 rest).1,
       (runCreates (runCreate next s).2 rest).2)

/-- Total number of ids drawn by a sequence of create calls. -/
def totalCost : List CreateShape → Nat
  | [] => 0
  | s :: rest => s.cost + totalCost rest

theorem consumeIds_eq (k next : Nat) (hov : next + k < U64) :
    consumeIds next k = next + k := by
  induction k generalizing next with
  | zero => rfl
  | succ n ih =>
      have h1 : next + 1 < U64 := by omega
      have : (next + 1) % U64 = next + 1 := Nat.mod_eq_of_lt h1
      simp only [consumeIds, generateId, this]
      rw [ih (next + 1) (by omega)]
      omega

theorem runCreate_eq (next : Nat) (s : CreateShape) (hov : next + s.cost < U64) :
    runCreate next s = (next + s.pre, next + s.cost) := by
  have hcost : s.cost = s.pre + 1 + s.post := rfl
  have h1 : next + s.pre < U64 := by omega
  have h2 : next + s.pre + 1 < U64 := by omega
  simp only [runCreate, generateId, consumeIds_eq s.pre next (by omega)]
  rw [Nat.mod_eq_of_lt h2, consumeIds_eq s.post (next + s.pre + 1) (by omega)]
  refine Prod.ext rfl ?_
  simp only
  omega

theorem runCreates_bounds (ops : List CreateShape) (next : Nat)
    (hov : next + totalCost ops < U64) :
    (∀ h ∈ (runCreates next ops).1, next ≤ h ∧ h < next + totalCost ops) ∧
    (runCreates next ops).2 = next + totalCost ops ∧
    List.Pairwise (· < ·) (runCreates next ops).1 := by
  induction ops generalizing next with
  | nil => simp [runCreates, totalCost]
  | cons s rest ih =>
      have htot : totalCost (s :: rest) = s.cost + totalCost rest := rfl
      have hcost : s.cost = s.pre + 1 + s.post := rfl
      have hc : runCreate next s = (next + s.pre, next + s.cost) :=
        runCreate_eq next s (by omega)
      have hov' : next + s.cost + totalCost rest < U64 := by omega
      obtain ⟨ihmem, ihsnd, ihpw⟩ := ih (next + s.cost) hov'
      simp only [runCreates, hc]
      refine ⟨?_, ?_, ?_⟩
      · intro h hmem
        rcases List.mem_cons.mp hmem with h1 | h2
        · omega
        · have := ihmem h h2
          omega
      · rw [ihsnd]; omega
      · refine List.pairwise_cons.mpr ⟨?_, ihpw⟩
        intro h hmem
        have := ihmem h hmem
        omega

/-- C1. For every sequence of create calls in one process (any object kinds,
any parents), run against the single `g_nextId` counter from any reachable
counter state (`1 ≤ next`, the boot value being 1) and not exhausting the
64-bit id space, the returned handles are monotonically increasing in call
order, pairwise distinct, never 0, and the counter has been incremented
exactly once per id drawn. -/
theorem create_handles_distinct_monotone (next : Nat) (ops : List CreateShape)
    (hpos : 1 ≤ next) (hov : next + totalCost ops < U64) :
    List.Pairwise (· < ·) (runCreates next ops).1 ∧
    List.Pairwise (· ≠ ·) (runCreates next ops).1 ∧
    (∀ h ∈ (runCreates next ops).1, h ≠ 0) ∧
    (runCreates next ops).2 = next + totalCost ops := by
  obtain ⟨hmem, hsnd, hpw⟩ := runCreates_bounds ops next hov
  refine ⟨hpw, hpw.imp (fun hlt => Nat.ne_of_lt hlt), ?_, hsnd⟩
  intro h hm
  have := hmem h hm
  omega

/-- Witness for C1 at the boot counter value and three concrete create calls
(the second drawing two extra ids before the returned one, as
`createSwapchainInternal` does for a one-image swapchain). -/
theorem create_handles_distinct_monotone_witness :
    List.Pairwise (· < ·) (runCreates firstId [⟨0, 0⟩, ⟨2, 0⟩, ⟨0, 1⟩]).1 ∧
    List.Pairwise (· ≠ ·) (runCreates firstId [⟨0, 0⟩, ⟨2, 0⟩, ⟨0, 1⟩]).1 ∧
    (∀ h ∈ (runCreates firstId [⟨0, 0⟩, ⟨2, 0⟩, ⟨0, 1⟩]).1, h ≠ 0) ∧
    (runCreates firstId [⟨0, 0⟩, ⟨2, 0⟩, ⟨0, 1⟩]).2 =
      firstId + totalCost [⟨0, 0⟩, ⟨2, 0⟩, ⟨0, 1⟩] :=
  create_handles_distinct_monotone firstId [⟨0, 0⟩, ⟨2, 0⟩, ⟨0, 1⟩]
    (by decide) (by decide)

/-! ### C2: a released handle never resolves again

Once an object is removed from its registry (`removeObject`), `getObject` of
its handle yields `none`; because every later insertion is made by
`storeObject` under a freshly drawn id strictly above every id drawn before,
the released handle can never be mapped again. -/

/-- One registry-mutating operation: a `storeObject` of some object (drawing
a fresh id from the shared counter) or a `removeObject` of some handle
(`getObject` calls do not mutate). -/
inductive RegOp (α : Type) where
  | store (obj : α)
  | remove (id : Nat)

/-- Apply one operation to a registry paired with the counter state. -/
def applyRegOp {α : Type} : Registry α × Nat → RegOp α → Registry α × Nat
  | (r, next), .store obj =>
      let p := storeObject next r obj
      (p.2.2, p.2.1)
  | (r, next), .remove id => ((removeObject r id).2, next)

/-- Apply a sequence of operations. -/
def runRegOps {α : Type} : Registry α × Nat → List (RegOp α) → Registry α × Nat
  | st, [] => st
  | st, op :: rest => runRegOps (applyRegOp st op) rest

/-- Number of `storeObject` calls (fresh ids drawn) in an operation list. -/
def storeCount {α : Type} : List (RegOp α) → Nat
  | [] => 0
  | .store _ :: rest => 1 + storeCount rest
  | .remove _ :: rest => storeCount rest

theorem find_eraseKey_none {α : Type} (r : Registry α) (k h : Nat)
    (hnone : Registry.find? r h = none) :
    Registry.find? (Registry.eraseKey r k) h = none := by
  induction r with
  | nil => rfl
  | cons p rest ih =>
      obtain ⟨pk, pv⟩ := p
      simp only [Registry.find?] at hnone
      by_cases hkh : pk = h
      · simp [hkh] at hnone
      · simp only [hkh, if_false] at hnone
        simp only [Registry.eraseKey]
        by_cases hkk : pk = k
        · simp only [hkk, if_true]
          exact hnone
        · simp only [hkk, if_false, Registry.find?, hkh]
          exact ih hnone

theorem find_of_keysBelow {α : Type} (r : Registry α) (next : Nat)
    (hfresh : ∀ k ∈ Registry.keys r, k < next) :
    Registry.find? r next = none := by
  induction r with
  | nil => rfl
  | cons p rest ih =>
      obtain ⟨pk, pv⟩ := p
      have hk : pk < next := hfresh pk (by simp [Registry.keys])
      simp only [Registry.find?]
      rw [if_neg (by omega)]
      exact ih (fun k hk2 => hfresh k (by simp only [Registry.keys, List.mem_cons]; right; exact hk2))

theorem keys_eraseKey_mem {α : Type} (r : Registry α) (id k : Nat)
    (hmem : k ∈ Registry.keys (Registry.eraseKey r id)) :
    k ∈ Registry.keys r := by
  induction r with
  | nil => exact hmem
  | cons p rest ih =>
      obtain ⟨pk, pv⟩ := p
      simp only [Registry.eraseKey] at hmem
      by_cases hkk : pk = id
      · simp only [hkk, if_true] at hmem
        simp only [Registry.keys, List.mem_cons]
        right
        exact hmem
      · simp only [hkk, if_false, Registry.keys, List.mem_cons] at hmem
        simp only [Registry.keys, List.mem_cons]
        rcases hmem with h1 | h2
        · left; exact h1
        · right; exact ih h2

theorem resolve_none_persists {α : Type} (ops : List (RegOp α))
    (r : Registry α) (next h : Nat)
    (hfresh : ∀ k ∈ Registry.keys r, k < next)
    (hlt : h < next)
    (hnone : getObject r h = none)
    (hov : next + storeCount ops < U64) :
    getObject (runRegOps (r, next) ops).1 h = none := by
  induction ops generalizing r next with
  | nil => exact hnone
  | cons op rest ih =>
      cases op with
      | store obj =>
          have hsc : storeCount (RegOp.store obj :: rest) = 1 + storeCount rest := rfl
          have hnext : (next + 1) % U64 = next + 1 := Nat.mod_eq_of_lt (by omega)
          have happ : applyRegOp (r, next) (RegOp.store obj) =
              ((next, obj) :: r, next + 1) := by
            simp [applyRegOp, storeObject, generateId, hnext]
          simp only [runRegOps, happ]
          refine ih ((next, obj) :: r) (next + 1) ?_ (by omega) ?_ (by omega)
          · intro k hk
            simp only [Registry.keys, List.mem_cons] at hk
            rcases hk with h1 | h2
            · omega
            · have := hfresh k h2
              omega
          · simp only [getObject, Registry.find?]
            rw [if_neg (by omega)]
            exact hnone
      | remove id =>
          have happ : applyRegOp (r, next) (RegOp.remove id) =
              ((removeObject r id).2, next) := rfl
          have hsc : storeCount (RegOp.remove id :: rest) = storeCount rest := rfl
          simp only [runRegOps, happ]
          refine ih (removeObject r id).2 next ?_ hlt ?_ (by omega)
          · intro k hk
            refine hfresh k ?_
            simp only [removeObject] at hk
            cases hfind : Registry.find? r id with
            | none => simpa [hfind] using hk
            | some v =>
                rw [hfind] at hk
                exact keys_eraseKey_mem r id k hk
          · simp only [getObject, removeObject]
            cases hfind : Registry.find? r id with
            | none => exact hnone
            | some v => exact find_eraseKey_none r id h hnone

/-- C2. Allocate an object into a registry whose live keys all lie below the
counter (the invariant every reachable bridge state satisfies), then release
the returned handle: resolving that handle yields `none`, and it still yields
`none` after any further sequence of stores and removes that does not exhaust
the 64-bit id space, because the global counter never re-issues an id. -/
theorem release_then_never_resolves {α : Type} (r : Registry α) (next : Nat)
    (x : α) (ops : List (RegOp α))
    (hfresh : ∀ k ∈ Registry.keys r, k < next)
    (hov : next + 1 + storeCount ops < U64) :
    getObject (removeObject (storeObject next r x).2.2 (storeObject next r x).1).2
        (storeObject next r x).1 = none ∧
    getObject (runRegOps
        ((removeObject (storeObject next r x).2.2 (storeObject next r x).1).2,
         (storeObject next r x).2.1) ops).1
        (storeObject next r x).1 = none := by
  have hnext : (next + 1) % U64 = next + 1 := Nat.mod_eq_of_lt (by omega)
  have hstore : storeObject next r x = (next, next + 1, (next, x) :: r) := by
    simp [storeObject, generateId, hnext]
  have hfind : Registry.find? ((next, x) :: r) next = some x := by
    simp [Registry.find?]
  have hrem : removeObject ((next, x) :: r) next = (some x, r) := by
    simp [removeObject, hfind, Registry.eraseKey]
  have hres : getObject r next = none := find_of_keysBelow r next hfresh
  rw [hstore]
  simp only [hrem]
  exact ⟨hres, resolve_none_persists ops r (next + 1) next
    (fun k hk => by have := hfresh k hk; omega) (by omega) hres (by omega)⟩

/-- Witness for C2: allocate into a two-entry registry at counter 3, release,
then store twice, remove an unrelated handle and remove the released handle
again; the released handle resolves to `none` throughout. -/
theorem release_then_never_resolves_witness :
    getObject (removeObject (storeObject 3 [(1, 10), (2, 20)] 30).2.2
        (storeObject 3 [(1, 10), (2, 20)] 30).1).2
        (storeObject 3 [(1, 10), (2, 20)] 30).1 = none ∧
    getObject (runRegOps
        ((removeObject (storeObject 3 [(1, 10), (2, 20)] 30).2.2
            (storeObject 3 [(1, 10), (2, 20)] 30).1).2,
         (storeObject 3 [(1, 10), (2, 20)] 30).2.1)
        [RegOp.store 40, RegOp.remove 1, RegOp.store 50, RegOp.remove 3]).1
        (storeObject 3 [(1, 10), (2, 20)] 30).1 = none :=
  release_then_never_resolves [(1, 10), (2, 20)] 3 30
    [RegOp.store 40, RegOp.remove 1, RegOp.store 50, RegOp.remove 3]
    (by decide) (by decide)

/-! ### The object model

The ownership tree of the bridge: `g_instances` maps instance handles to
instances, an instance owns its surfaces and devices, a surface owns its
swapchains, a device owns its resource registries.  Backend (driver) handles
held inside the structs — `VkInstance`, `VkDevice`, `VkSwapchainKHR`,
`VkImage`, `VkFramebuffer`, `VkRenderPass` — only flow to driver calls and
are modelled as opaque `Nat` tokens or omitted where nothing in the claims
depends on them; registry-relevant fields are kept. -/

structure Extent2D where
  width : Nat
  height : Nat
deriving DecidableEq

/-- `VulkanSwapchain` (vulkan_bridge.cpp:164-177): the owning device (a
pointer in the source, a handle here), the extent, the ids of the per-image
texture and view entries registered in the device tables, and the three
per-swapchain synchronization primitives as backend tokens. -/
structure VulkanSwapchain where
  deviceId : Nat
  extent : Extent2D
  textureIds : List Nat
  textureViewIds : List Nat
  imageAvailableSemaphore : Nat
  renderFinishedSemaphore : Nat
  inFlightFence : Nat
deriving DecidableEq

/-- `VulkanSurface` (vulkan_bridge.cpp:179-183): the swapchain registry (the
backend surface and the native window are backend tokens, omitted). -/
structure VulkanSurface where
  swapchains : Registry VulkanSwapchain

/-- `VulkanDevice` (vulkan_bridge.cpp:185-209): the queue family indices and
the per-device registries the claims touch; the remaining registries
(buffers, shader modules, …) behave identically and are omitted, as are the
backend handles. -/
structure VulkanDevice where
  graphicsQueueFamily : Nat
  presentQueueFamily : Nat
  textures : Registry Unit
  textureViews : Registry Unit
  commandEncoders : Registry Unit
  commandBuffers : Registry Unit

/-- `VulkanInstance` (vulkan_bridge.cpp:211-217). -/
structure VulkanInstance where
  surfaces : Registry VulkanSurface
  devices : Registry VulkanDevice

/-- The process-wide state `g_instances` (vulkan_bridge.cpp:219). -/
structure World where
  instances : Registry VulkanInstance

/-- The named errors thrown by the bridge (`throw std::runtime_error(...)`),
restricted to the ones reachable from the embedded operations. -/
inductive VkError where
  | invalidInstance
  | invalidDevice
  | invalidSurface
  | invalidSwapchain
  | swapchainOutOfDate
  | acquireFailed
deriving DecidableEq

/-! ### C3: destroy operations on unknown handles -/

/-- Erase a destroyed swapchain's texture-view and texture entries from the
device tables (vulkan_bridge.cpp:685-690). -/
def eraseSwapchainResources (device : VulkanDevice) (sc : VulkanSwapchain) :
    VulkanDevice :=
  { device with
    textureViews := sc.textureViewIds.foldl Registry.eraseKey device.textureViews,
    textures := sc.textureIds.foldl Registry.eraseKey device.textures }

/-- `destroySwapchainInternal` (vulkan_bridge.cpp:664-694): remove the
swapchain from the surface registry — a miss is a silent no-op — then wait
for the device to go idle, destroy the backend sync objects, framebuffers
and render pass (backend effects outside the model), erase the swapchain's
texture/view entries from the device tables, and destroy the backend
swapchain. -/
def destroySwapchainInternal (device : VulkanDevice) (surface : VulkanSurface)
    (swapchainId : Nat) : VulkanDevice × VulkanSurface :=
  match removeObject surface.swapchains swapchainId with
  | (none, _) => (device, surface)
  | (some sc, rest) => (eraseSwapchainResources device sc, { swapchains := rest })

/-- The swapchain-teardown loop of `destroyDeviceInternal`
(vulkan_bridge.cpp:886-895): collect the swapchain ids of one surface, then
destroy each against the given device. -/
def destroySwapchainsOfSurface (device : VulkanDevice) (surface : VulkanSurface) :
    VulkanDevice × VulkanSurface :=
  (Registry.keys surface.swapchains).foldl
    (fun acc swapId => destroySwapchainInternal acc.1 acc.2 swapId)
    (device, surface)

/-- `destroyDeviceInternal` (vulkan_bridge.cpp:880-962): remove the device —
a miss is a silent no-op — then wait idle, destroy every swapchain under
every surface of the instance against the removed device, and release the
device's own resources (pipelines, layouts, …, all owned by the removed
device object, hence gone with it; the remaining effects are backend
destruction calls). -/
def destroyDeviceInternal (inst : VulkanInstance) (deviceId : Nat) :
    VulkanInstance :=
  match removeObject inst.devices deviceId with
  | (none, _) => inst
  | (some device, devices') =>
      let folded := inst.surfaces.foldl
        (fun (acc : VulkanDevice × Registry VulkanSurface) entry =>
          let q := destroySwapchainsOfSurface acc.1 entry.2
          (q.1, Registry.setKey acc.2 entry.1 q.2))
        (device, inst.surfaces)
      { surfaces := folded.2, devices := devices' }

/-- `destroySurfaceInternal` (vulkan_bridge.cpp:964-984): remove the surface
— a miss is a silent no-op — then destroy each of its swapchains against the
swapchain's own device (`swapEntry.second->device`, a pointer in the source,
resolved by handle here), and release the backend surface and window. -/
def destroySurfaceInternal (inst : VulkanInstance) (surfaceId : Nat) :
    VulkanInstance :=
  match removeObject inst.surfaces surfaceId with
  | (none, _) => inst
  | (some surf, surfaces') =>
      let devices := surf.swapchains.foldl
        (fun devs entry =>
          match Registry.find? devs entry.2.deviceId with
          | none => devs
          | some dev =>
              Registry.setKey devs entry.2.deviceId
                (eraseSwapchainResources dev entry.2))
        inst.devices
      { surfaces := surfaces', devices := devices }

/-- `kreekt::vk::destroyInstance` (vulkan_bridge.cpp:1993-2005): remove the
instance — a miss is a silent no-op — then destroy its devices and surfaces
and the backend instance.  The recursive teardown mutates only the already
detached instance object and backend handles, so its world-level effect is
the removal itself. -/
def destroyInstance (w : World) (instanceId : Nat) : World :=
  match removeObject w.instances instanceId with
  | (none, _) => w
  | (some _, instances') => { instances := instances' }

/-- `requireInstance` (vulkan_bridge.cpp:514-520): throws on an unknown
instance handle. -/
def requireInstanceE (w : World) (instanceId : Nat) :
    Except VkError VulkanInstance :=
  match Registry.find? w.instances instanceId with
  | none => .error .invalidInstance
  | some inst => .ok inst

/-- `kreekt::vk::destroyDevice` (vulkan_bridge.cpp:1988-1991):
`requireInstance` (throwing on an unknown instance handle), then
`destroyDeviceInternal`. -/
def destroyDevice (w : World) (instanceId deviceId : Nat) :
    Except VkError World :=
  match Registry.find? w.instances instanceId with
  | none => .error .invalidInstance
  | some inst =>
      .ok { instances := Registry.setKey w.instances instanceId
              (destroyDeviceInternal inst deviceId) }

/-- `kreekt::vk::destroySurface` (vulkan_bridge.cpp:1983-1986). -/
def destroySurface (w : World) (instanceId surfaceId : Nat) :
    Except VkError World :=
  match Registry.find? w.instances instanceId with
  | none => .error .invalidInstance
  | some inst =>
      .ok { instances := Registry.setKey w.instances instanceId
              (destroySurfaceInternal inst surfaceId) }

/-- `kreekt::vk::destroySwapchain` (vulkan_bridge.cpp:1975-1981):
`requireInstance`, `requireDevice` and `requireSurface` (each throwing on an
unknown handle), then `destroySwapchainInternal`. -/
def destroySwapchain (w : World) (instanceId deviceId surfaceId swapchainId : Nat) :
    Except VkError World :=
  match Registry.find? w.instances instanceId with
  | none => .error .invalidInstance
  | some inst =>
      match Registry.find? inst.devices deviceId with
      | none => .error .invalidDevice
      | some device =>
          match Registry.find? inst.surfaces surfaceId with
          | none => .error .invalidSurface
          | some surface =>
              let q := destroySwapchainInternal device surface swapchainId
              .ok { instances := Registry.setKey w.instances instanceId
                      { inst with
                        devices := Registry.setKey inst.devices deviceId q.1,
                        surfaces := Registry.setKey inst.surfaces surfaceId q.2 } }

/-- `destroyCommandEncoderInternal` (vulkan_bridge.cpp:1772-1779): remove the
encoder — a miss is a silent no-op — and free its backend command buffer. -/
def destroyCommandEncoderInternal (device : VulkanDevice) (encoderId : Nat) :
    VulkanDevice :=
  match removeObject device.commandEncoders encoderId with
  | (none, _) => device
  | (some _, rest) => { device with commandEncoders := rest }

/-- `destroyCommandBufferInternal` (vulkan_bridge.cpp:1781-1787). -/
def destroyCommandBufferInternal (device : VulkanDevice) (commandBufferId : Nat) :
    VulkanDevice :=
  match removeObject device.commandBuffers commandBufferId with
  | (none, _) => device
  | (some _, rest) => { device with commandBuffers := rest }

/-- `vkDestroyCommandEncoder` (vulkan_bridge.cpp:2517-2526): `requireInstance`
and `requireDevice` (each throwing on an unknown handle), then
`destroyCommandEncoderInternal`. -/
def destroyCommandEncoder (w : World) (instanceId deviceId encoderId : Nat) :
    Except VkError World :=
  match Registry.find? w.instances instanceId with
  | none => .error .invalidInstance
  | some inst =>
      match Registry.find? inst.devices deviceId with
      | none => .error .invalidDevice
      | some device =>
          .ok { instances := Registry.setKey w.instances instanceId
                  { inst with
                    devices := Registry.setKey inst.devices deviceId
                      (destroyCommandEncoderInternal device encoderId) } }

/-- `vkDestroyCommandBuffer` (vulkan_bridge.cpp:2506-2515). -/
def destroyCommandBuffer (w : World) (instanceId deviceId commandBufferId : Nat) :
    Except VkError World :=
  match Registry.find? w.instances instanceId with
  | none => .error .invalidInstance
  | some inst =>
      match Registry.find? inst.devices deviceId with
      | none => .error .invalidDevice
      | some device =>
          .ok { instances := Registry.setKey w.instances instanceId
                  { inst with
                    devices := Registry.setKey inst.devices deviceId
                      (destroyCommandBufferInternal device commandBufferId) } }

theorem setKey_find_self {α : Type} (r : Registry α) (id : Nat) (v : α)
    (hfind : Registry.find? r id = some v) :
    Registry.setKey r id v = r := by
  induction r with
  | nil => rfl
  | cons p rest ih =>
      obtain ⟨pk, pv⟩ := p
      simp only [Registry.find?] at hfind
      simp only [Registry.setKey]
      by_cases hk : pk = id
      · simp only [hk, if_true] at hfind ⊢
        cases hfind
        rfl
      · simp only [hk, if_false] at hfind ⊢
        rw [ih hfind]

/-- C3 counterexample to the claim as stated: in a world holding exactly one
live instance under handle 1, `destroyDevice` called with the unknown
instance handle 2 raises an invalid-handle error instead of completing as a
no-op. -/
theorem destroyDevice_unknown_instance_raises :
    destroyDevice
      { instances := [(1, { surfaces := [], devices := [] })] } 2 1 =
      Except.error VkError.invalidInstance := rfl

/-- C3 (amended): each destroy operation is a no-op completing without error
when the handle of the object being destroyed is unknown or already
destroyed, leaving all registries unchanged; but the ancestor handles on the
lookup path (`instanceId` for all of them, plus `deviceId`/`surfaceId` for
`destroySwapchain` and `deviceId` for the command-encoder/buffer destroys)
must be live — an unknown ancestor raises an invalid-handle error. -/
theorem destroy_noop_on_unknown_target (w : World)
    (instanceId deviceId surfaceId id : Nat)
    (inst : VulkanInstance) (device : VulkanDevice) (surface : VulkanSurface)
    (hi : Registry.find? w.instances instanceId = some inst)
    (hd : Registry.find? inst.devices deviceId = some device)
    (hs : Registry.find? inst.surfaces surfaceId = some surface) :
    (Registry.find? w.instances id = none → destroyInstance w id = w) ∧
    (Registry.find? inst.devices id = none →
        destroyDevice w instanceId id = Except.ok w) ∧
    (Registry.find? inst.surfaces id = none →
        destroySurface w instanceId id = Except.ok w) ∧
    (Registry.find? surface.swapchains id = none →
        destroySwapchain w instanceId deviceId surfaceId id = Except.ok w) ∧
    (Registry.find? device.commandEncoders id = none →
        destroyCommandEncoder w instanceId deviceId id = Except.ok w) ∧
    (Registry.find? device.commandBuffers id = none →
        destroyCommandBuffer w instanceId deviceId id = Except.ok w) := by
  have hsetI : Registry.setKey w.instances instanceId inst = w.instances :=
    setKey_find_self _ _ _ hi
  have hsetD : Registry.setKey inst.devices deviceId device = inst.devices :=
    setKey_find_self _ _ _ hd
  have hsetS : Registry.setKey inst.surfaces surfaceId surface = inst.surfaces :=
    setKey_find_self _ _ _ hs
  have hetaI : ({ surfaces := inst.surfaces, devices := inst.devices } :
      VulkanInstance) = inst := rfl
  refine ⟨?_, ?_, ?_, ?_, ?_, ?_⟩
  · intro hnone
    simp only [destroyInstance, removeObject, hnone]
  · intro hnone
    simp only [destroyDevice, hi, destroyDeviceInternal, removeObject, hnone, hsetI]
  · intro hnone
    simp only [destroySurface, hi, destroySurfaceInternal, removeObject, hnone, hsetI]
  · intro hnone
    simp only [destroySwapchain, hi, hd, hs, destroySwapchainInternal, removeObject,
      hnone, hsetD, hsetS]
    rw [hetaI, hsetI]
  · intro hnone
    simp only [destroyCommandEncoder, hi, hd, destroyCommandEncoderInternal,
      removeObject, hnone, hsetD]
    rw [hetaI, hsetI]
  · intro hnone
    simp only [destroyCommandBuffer, hi, hd, destroyCommandBufferInternal,
      removeObject, hnone, hsetD]
    rw [hetaI, hsetI]

/-- A small live world for the C3 witness: instance 1 owning device 2 and
surface 3. -/
def cDevice : VulkanDevice :=
  { graphicsQueueFamily := 0, presentQueueFamily := 0, textures := [],
    textureViews := [], commandEncoders := [], commandBuffers := [] }

def cSurface : VulkanSurface := { swapchains := [] }

def cInstance : VulkanInstance :=
  { surfaces := [(3, cSurface)], devices := [(2, cDevice)] }

def cWorld : World := { instances := [(1, cInstance)] }

/-- Witness for the amended C3 at the concrete world, with 9 as the unknown
target handle everywhere. -/
theorem destroy_noop_on_unknown_target_witness :
    destroyInstance cWorld 9 = cWorld ∧
    destroyDevice cWorld 1 9 = Except.ok cWorld ∧
    destroySurface cWorld 1 9 = Except.ok cWorld ∧
    destroySwapchain cWorld 1 2 3 9 = Except.ok cWorld ∧
    destroyCommandEncoder cWorld 1 2 9 = Except.ok cWorld ∧
    destroyCommandBuffer cWorld 1 2 9 = Except.ok cWorld := by
  have t := destroy_noop_on_unknown_target cWorld 1 2 3 9 cInstance cDevice
    cSurface rfl rfl rfl
  exact ⟨t.1 rfl, t.2.1 rfl, t.2.2.1 rfl, t.2.2.2.1 rfl, t.2.2.2.2.1 rfl,
    t.2.2.2.2.2 rfl⟩

/-! ### C4: acquireFrame -/

/-- The driver's reply to `vkAcquireNextImageKHR`: a successful image index,
`VK_ERROR_OUT_OF_DATE_KHR`, `VK_SUBOPTIMAL_KHR`, or any other failure code. -/
inductive AcquireReply where
  | success (imageIndex : Nat)
  | outOfDate
  | suboptimal
  | failure
deriving DecidableEq

/-- Synchronization calls issued by `acquireFrameInternal`, in order. -/
inductive SyncEvent where
  | waitForFence (fence : Nat)
  | resetFence (fence : Nat)
  | acquireNextImage (signalSemaphore : Nat)
deriving DecidableEq

/-- The `VulkanSurfaceFrame` result (vulkan_bridge.cpp:157-162). -/
structure VulkanSurfaceFrame where
  imageIndex : Nat
  textureId : Nat
  viewId : Nat
deriving DecidableEq

/-- `acquireFrameInternal` (vulkan_bridge.cpp:1135-1162): wait on the
swapchain's in-flight fence (unbounded timeout), reset it, then call
`vkAcquireNextImageKHR` gated by the image-available semaphore; throw the
out-of-date error on `VK_ERROR_OUT_OF_DATE_KHR` or `VK_SUBOPTIMAL_KHR`, a
generic acquire failure on any other non-success code, and otherwise return
the image index with the texture and view ids registered at that index.
Returns the issued synchronization calls alongside the result. -/
def acquireFrameInternal (sc : VulkanSwapchain) (reply : AcquireReply) :
    List SyncEvent × Except VkError VulkanSurfaceFrame :=
  ([SyncEvent.waitForFence sc.inFlightFence,
    SyncEvent.resetFence sc.inFlightFence,
    SyncEvent.acquireNextImage sc.imageAvailableSemaphore],
   match reply with
   | .outOfDate => .error .swapchainOutOfDate
   | .suboptimal => .error .swapchainOutOfDate
   | .failure => .error .acquireFailed
   | .success imageIndex =>
       .ok { imageIndex := imageIndex,
             textureId := sc.textureIds.getD imageIndex 0,
             viewId := sc.textureViewIds.getD imageIndex 0 })

/-- C4. `acquireFrameInternal` always first waits on the swapchain's single
in-flight fence and resets it, then requests the next image gated by the
image-available semaphore; it fails with the swapchain-out-of-date error
exactly when the driver reports out-of-date or suboptimal; and on a
successful reply it returns the image index together with the texture and
view handles registered for that index. -/
theorem acquireFrame_spec (sc : VulkanSwapchain) (reply : AcquireReply) :
    (acquireFrameInternal sc reply).1 =
      [SyncEvent.waitForFence sc.inFlightFence,
       SyncEvent.resetFence sc.inFlightFence,
       SyncEvent.acquireNextImage sc.imageAvailableSemaphore] ∧
    ((acquireFrameInternal sc reply).2 = Except.error VkError.swapchainOutOfDate ↔
      reply = AcquireReply.outOfDate ∨ reply = AcquireReply.suboptimal) ∧
    (∀ imageIndex, reply = AcquireReply.success imageIndex →
      (acquireFrameInternal sc reply).2 =
        Except.ok { imageIndex := imageIndex,
                    textureId := sc.textureIds.getD imageIndex 0,
                    viewId := sc.textureViewIds.getD imageIndex 0 }) := by
  refine ⟨rfl, ?_, ?_⟩
  · cases reply <;> simp [acquireFrameInternal]
  · intro imageIndex hEq
    subst hEq
    rfl

/-- Witness for C4 at a concrete two-image swapchain and a successful reply
for image index 1. -/
theorem acquireFrame_spec_witness :
    (acquireFrameInternal
        ⟨2, ⟨640, 480⟩, [10, 11], [12, 13], 7, 8, 9⟩
        (AcquireReply.success 1)).1 =
      [SyncEvent.waitForFence 9, SyncEvent.resetFence 9,
       SyncEvent.acquireNextImage 7] ∧
    (acquireFrameInternal
        ⟨2, ⟨640, 480⟩, [10, 11], [12, 13], 7, 8, 9⟩
        (AcquireReply.success 1)).2 =
      Except.ok { imageIndex := 1, textureId := 11, viewId := 13 } := by
  have t := acquireFrame_spec ⟨2, ⟨640, 480⟩, [10, 11], [12, 13], 7, 8, 9⟩
    (AcquireReply.success 1)
  exact ⟨t.1, (t.2.2 1 rfl).trans rfl⟩

/-! ### C5: submit synchronization -/

/-- The `VkSubmitInfo` and fence argument assembled by
`submitCommandBufferInternal`, keeping the fields the claim is about. -/
structure SubmitInfo where
  waitSemaphores : List Nat
  commandBuffers : List Nat
  signalSemaphores : List Nat
  fence : Option Nat
deriving DecidableEq

/-- `submitCommandBufferInternal` (vulkan_bridge.cpp:1736-1770): when the
finished command buffer targets a swapchain, wait on that swapchain's
image-available semaphore, signal its render-finished semaphore and submit
with its in-flight fence; otherwise submit with zero wait semaphores, zero
signal semaphores and no fence (`VK_NULL_HANDLE`). -/
def submitCommandBufferInternal (commandBuffer : Nat)
    (swapchain : Option VulkanSwapchain) : SubmitInfo :=
  match swapchain with
  | some sc =>
      { waitSemaphores := [sc.imageAvailableSemaphore],
        commandBuffers := [commandBuffer],
        signalSemaphores := [sc.renderFinishedSemaphore],
        fence := some sc.inFlightFence }
  | none =>
      { waitSemaphores := [],
        commandBuffers := [commandBuffer],
        signalSemaphores := [],
        fence := none }

/-- C5. A submission targeting a swapchain waits on that swapchain's
image-available semaphore, signals its render-finished semaphore and signals
its in-flight fence; a submission not targeting a swapchain carries zero wait
semaphores, zero signal semaphores and no fence. -/
theorem submit_sync_spec (commandBuffer : Nat) (sc : VulkanSwapchain) :
    (submitCommandBufferInternal commandBuffer (some sc)).waitSemaphores =
      [sc.imageAvailableSemaphore] ∧
    (submitCommandBufferInternal commandBuffer (some sc)).signalSemaphores =
      [sc.renderFinishedSemaphore] ∧
    (submitCommandBufferInternal commandBuffer (some sc)).fence =
      some sc.inFlightFence ∧
    (submitCommandBufferInternal commandBuffer none).waitSemaphores = [] ∧
    (submitCommandBufferInternal commandBuffer none).signalSemaphores = [] ∧
    (submitCommandBufferInternal commandBuffer none).fence = none :=
  ⟨rfl, rfl, rfl, rfl, rfl, rfl⟩

/-! ### C6: chooseExtent -/

/-- The fields of `VkSurfaceCapabilitiesKHR` consulted by the bridge
(`chooseExtent` and `selectImageCount`); the remaining driver-reported
fields (transform, usage, …) are not consulted and are omitted. -/
structure SurfaceCapabilities where
  currentExtent : Extent2D
  minImageExtent : Extent2D
  maxImageExtent : Extent2D
  minImageCount : Nat
  maxImageCount : Nat
deriving DecidableEq

/-- `chooseExtent` (vulkan_bridge.cpp:435-445): if the reported current
extent's *width* differs from `uint32_t` max, return the current extent
unchanged; otherwise clamp the requested width and height componentwise to
the min/max image extent. -/
def chooseExtent (caps : SurfaceCapabilities) (width height : Nat) : Extent2D :=
  if caps.currentExtent.width ≠ UINT32MAX then caps.currentExtent
  else
    { width := max caps.minImageExtent.width (min caps.maxImageExtent.width width),
      height := max caps.minImageExtent.height (min caps.maxImageExtent.height height) }

/-- Capabilities whose current extent has the "client decides" width but a
definite height: the claim's "every other case" covers it, yet the code
clamps because only the width is compared against `0xFFFFFFFF`. -/
def capsMixedMarker : SurfaceCapabilities :=
  { currentExtent := ⟨4294967295, 100⟩,
    minImageExtent := ⟨1, 1⟩,
    maxImageExtent := ⟨4096, 4096⟩,
    minImageCount := 2,
    maxImageCount := 3 }

/-- C6 counterexample to the claim as stated: with
`currentExtent = (0xFFFFFFFF, 100)` — not equal to
`(0xFFFFFFFF, 0xFFFFFFFF)`, so the claim requires the current extent to pass
through unchanged — the code clamps the requested (800, 600) instead,
because `chooseExtent` compares only the width component against the
marker. -/
theorem chooseExtent_mixed_marker_clamps :
    chooseExtent capsMixedMarker 800 600 = ⟨800, 600⟩ ∧
    chooseExtent capsMixedMarker 800 600 ≠ capsMixedMarker.currentExtent := by
  decide

/-- C6 (amended): the chosen extent is the requested size clamped
componentwise to `[minImageExtent, maxImageExtent]` exactly when the
capabilities' current extent has *width* `0xFFFFFFFF` (the height component
is not consulted) — in particular (800, 600) against min (1, 1) / max
(4096, 4096) yields (800, 600) and (8000, 6000) yields (4096, 4096) — and in
every other case the capabilities' current extent is used unchanged. -/
theorem chooseExtent_spec (caps : SurfaceCapabilities) (width height : Nat) :
    (caps.currentExtent.width = UINT32MAX →
      chooseExtent caps width height =
        { width := max caps.minImageExtent.width (min caps.maxImageExtent.width width),
          height := max caps.minImageExtent.height (min caps.maxImageExtent.height height) }) ∧
    (caps.currentExtent.width ≠ UINT32MAX →
      chooseExtent caps width height = caps.currentExtent) := by
  constructor
  · intro hmarker
    simp [chooseExtent, hmarker]
  · intro hnot
    simp [chooseExtent, hnot]

/-- "Client decides" capabilities with min (1, 1) and max (4096, 4096), the
bounds of the claim's worked examples. -/
def capsClientDecides : SurfaceCapabilities :=
  { currentExtent := ⟨4294967295, 4294967295⟩,
    minImageExtent := ⟨1, 1⟩,
    maxImageExtent := ⟨4096, 4096⟩,
    minImageCount := 2,
    maxImageCount := 3 }

/-- Witness for the amended C6: the claim's two worked examples, plus a
pass-through case with a definite current extent. -/
theorem chooseExtent_spec_witness :
    chooseExtent capsClientDecides 800 600 = ⟨800, 600⟩ ∧
    chooseExtent capsClientDecides 8000 6000 = ⟨4096, 4096⟩ ∧
    chooseExtent capsMixedMarker 801 601 = ⟨801, 601⟩ := by
  refine ⟨?_, ?_, ?_⟩
  · exact ((chooseExtent_spec capsClientDecides 800 600).1 (by decide)).trans (by decide)
  · exact ((chooseExtent_spec capsClientDecides 8000 6000).1 (by decide)).trans (by decide)
  · exact ((chooseExtent_spec capsMixedMarker 801 601).1 (by decide)).trans (by decide)

/-! ### C7: selectImageCount -/

/-- `selectImageCount` (vulkan_bridge.cpp:447-453): request
`minImageCount + 1` images (`uint32_t` arithmetic), clamped down to
`maxImageCount` when that bound is nonzero and exceeded; `maxImageCount = 0`
means unbounded. -/
def selectImageCount (caps : SurfaceCapabilities) : Nat :=
  let count := (caps.minImageCount + 1) % U32
  if caps.maxImageCount > 0 ∧ count > caps.maxImageCount then caps.maxImageCount
  else count

/-- C7. For every surface-capabilities value whose `minImageCount + 1` fits
`uint32_t`, the requested image count is `minImageCount + 1`, left unclamped
when `maxImageCount = 0` (unbounded) and clamped down to `maxImageCount`
when `maxImageCount > 0`. -/
theorem selectImageCount_spec (caps : SurfaceCapabilities)
    (hov : caps.minImageCount + 1 < U32) :
    (caps.maxImageCount = 0 → selectImageCount caps = caps.minImageCount + 1) ∧
    (0 < caps.maxImageCount →
      selectImageCount caps = min (caps.minImageCount + 1) caps.maxImageCount) := by
  have hmod : (caps.minImageCount + 1) % U32 = caps.minImageCount + 1 :=
    Nat.mod_eq_of_lt hov
  constructor
  · intro hzero
    simp [selectImageCount, hmod, hzero]
  · intro hpos
    simp only [selectImageCount, hmod]
    by_cases hgt : caps.minImageCount + 1 > caps.maxImageCount
    · rw [if_pos ⟨hpos, hgt⟩]
      omega
    · rw [if_neg (fun hc => hgt hc.2)]
      omega

/-- Capabilities {min=2, max=3} of the claim's first worked example. -/
def capsMin2Max3 : SurfaceCapabilities :=
  { currentExtent := ⟨640, 480⟩, minImageExtent := ⟨1, 1⟩,
    maxImageExtent := ⟨4096, 4096⟩, minImageCount := 2, maxImageCount := 3 }

/-- Capabilities {min=2, max=0} (unbounded) of the claim's second worked
example. -/
def capsMin2Unbounded : SurfaceCapabilities :=
  { currentExtent := ⟨640, 480⟩, minImageExtent := ⟨1, 1⟩,
    maxImageExtent := ⟨4096, 4096⟩, minImageCount := 2, maxImageCount := 0 }

/-- Witness for C7: capabilities {min=2, max=3} yield 3 and {min=2, max=0}
(unbounded) yield 3. -/
theorem selectImageCount_spec_witness :
    selectImageCount capsMin2Max3 = 3 ∧ selectImageCount capsMin2Unbounded = 3 := by
  constructor
  · exact ((selectImageCount_spec capsMin2Max3 (by decide)).2 (by decide)).trans (by decide)
  · exact ((selectImageCount_spec capsMin2Unbounded (by decide)).1 (by decide)).trans (by decide)

/-! ### C8: resizeSwapchain

`resizeSwapchain` is declared in `include/vulkan_bridge.hpp:41-46` and
invoked from `jni_bridge.cpp:110`, but its definition is not among the
sources under review; the operation is modelled from the spec (§4.5). -/

/-- Modelled from the spec: the caller-visible state of one swapchain build.
The `generation` tag distinguishes the swapchain built by a resize from the
one it replaces; extent and image count come from the `createSwapchain`
construction path (`chooseExtent`, `selectImageCount`, embedded above from
the source). -/
structure RebuiltSwapchain where
  generation : Nat
  extent : Extent2D
  imageCount : Nat
deriving DecidableEq

/-- Modelled from the spec: the externally observable steps of a resize, in
order. -/
inductive ResizeStep where
  | deviceWaitIdle
  | teardownSwapchain (generation : Nat)
  | buildSwapchain (generation : Nat)
deriving DecidableEq

/-- Modelled from the spec: the `createSwapchain` construction path — choose
the extent from the surface capabilities and the requested size, request the
image count — producing a fully built swapchain (the driver is taken to
deliver exactly the requested image count). -/
def buildSwapchainState (caps : SurfaceCapabilities) (width height generation : Nat) :
    RebuiltSwapchain :=
  { generation := generation,
    extent := chooseExtent caps width height,
    imageCount := selectImageCount caps }

/-- Modelled from the spec: `resizeSwapchain` (missing from src/, declared in
`include/vulkan_bridge.hpp:41-46`) "must first force the owning device idle,
then tear down every swapchain-owned resource … and rebuild via the same
construction path as `createSwapchain` using the new dimensions", atomically:
the returned value is the completely rebuilt swapchain, never a partial
one. -/
def resizeSwapchainModel (sc : RebuiltSwapchain) (caps : SurfaceCapabilities)
    (width height : Nat) : List ResizeStep × RebuiltSwapchain :=
  ([ResizeStep.deviceWaitIdle,
    ResizeStep.teardownSwapchain sc.generation,
    ResizeStep.buildSwapchain (sc.generation + 1)],
   buildSwapchainState caps width height (sc.generation + 1))

/-- Modelled from the spec: an `acquireFrame` against a built swapchain
returns an image index delivered by the driver — always within
`[0, imageCount)` of that very swapchain — tagged with the generation of the
swapchain that served it. -/
def acquireFrameModel (sc : RebuiltSwapchain) (imageIndex : Nat) :
    Except VkError (Nat × Nat) :=
  if imageIndex < sc.imageCount then Except.ok (imageIndex, sc.generation)
  else Except.error VkError.acquireFailed

/-- C8. A resize first forces the device idle, tears the old swapchain down
before the new one is built, rebuilds through the same construction path as
`createSwapchain` with the new dimensions, yields only the completely rebuilt
swapchain, and an immediately following `acquireFrame` succeeds with an image
index inside `[0, imageCount)` of the new swapchain — tagged with the new
generation, never the old one. -/
theorem resizeSwapchain_spec (sc : RebuiltSwapchain) (caps : SurfaceCapabilities)
    (width height imageIndex : Nat)
    (hidx : imageIndex < selectImageCount caps) :
    (resizeSwapchainModel sc caps width height).1 =
      [ResizeStep.deviceWaitIdle,
       ResizeStep.teardownSwapchain sc.generation,
       ResizeStep.buildSwapchain (sc.generation + 1)] ∧
    (resizeSwapchainModel sc caps width height).2 =
      buildSwapchainState caps width height (sc.generation + 1) ∧
    (resizeSwapchainModel sc caps width height).2.generation ≠ sc.generation ∧
    acquireFrameModel (resizeSwapchainModel sc caps width height).2 imageIndex =
      Except.ok (imageIndex, sc.generation + 1) ∧
    imageIndex < (resizeSwapchainModel sc caps width height).2.imageCount := by
  refine ⟨rfl, rfl, Nat.succ_ne_self sc.generation, ?_, hidx⟩
  simp only [resizeSwapchainModel, buildSwapchainState, acquireFrameModel]
  rw [if_pos hidx]

/-- Witness for C8: resize a generation-0 swapchain to 640×480 against
{min=2, max=3} capabilities, then acquire image index 2 of the three images
of the rebuilt swapchain. -/
theorem resizeSwapchain_spec_witness :
    (resizeSwapchainModel ⟨0, ⟨800, 600⟩, 3⟩ capsMin2Max3 640 480).1 =
      [ResizeStep.deviceWaitIdle, ResizeStep.teardownSwapchain 0,
       ResizeStep.buildSwapchain 1] ∧
    (resizeSwapchainModel ⟨0, ⟨800, 600⟩, 3⟩ capsMin2Max3 640 480).2 =
      buildSwapchainState capsMin2Max3 640 480 1 ∧
    (resizeSwapchainModel ⟨0, ⟨800, 600⟩, 3⟩ capsMin2Max3 640 480).2.generation ≠ 0 ∧
    acquireFrameModel (resizeSwapchainModel ⟨0, ⟨800, 600⟩, 3⟩ capsMin2Max3 640 480).2 2 =
      Except.ok (2, 1) ∧
    2 < (resizeSwapchainModel ⟨0, ⟨800, 600⟩, 3⟩ capsMin2Max3 640 480).2.imageCount :=
  resizeSwapchain_spec ⟨0, ⟨800, 600⟩, 3⟩ capsMin2Max3 640 480 2 (by decide)

/-! ### C9: queue-family selection and image sharing mode -/

/-- One queue family as consulted by `createDeviceInternal`: the
`VK_QUEUE_GRAPHICS_BIT` flag and the driver's present-support reply
(`vkGetPhysicalDeviceSurfaceSupportKHR`) for the family against the first
registered surface. -/
structure QueueFamily where
  supportsGraphics : Bool
  presentSupport : Bool
deriving DecidableEq

/-- One enumerated physical device: its discrete-GPU property and its queue
families in index order. -/
structure PhysicalDevice where
  isDiscreteGpu : Bool
  queueFamilies : List QueueFamily
deriving DecidableEq

/-- The selection result of `createDeviceInternal`: physical-device index and
the two recorded queue family indices. -/
structure DeviceSelection where
  deviceIndex : Nat
  graphicsQueueFamily : Nat
  presentQueueFamily : Nat
deriving DecidableEq

/-- The inner family loop of `createDeviceInternal`
(vulkan_bridge.cpp:793-814): take the first family with graphics capability
whose present support holds — present support is only queried when surfaces
exist, else assumed. -/
def pickQueueFamilyFrom (hasSurfaces : Bool) :
    Nat → List QueueFamily → Option Nat
  | _, [] => none
  | i, fam :: rest =>
      if fam.supportsGraphics && (!hasSurfaces || fam.presentSupport) then some i
      else pickQueueFamilyFrom hasSurfaces (i + 1) rest

/-- The candidate loop of `createDeviceInternal` (vulkan_bridge.cpp:781-819):
skip non-discrete devices when a discrete GPU was requested; on the first
device with an acceptable family, record that family as both the graphics
and the present queue family. -/
def selectPhysicalDeviceFrom (requestDiscrete hasSurfaces : Bool) :
    Nat → List PhysicalDevice → Option DeviceSelection
  | _, [] => none
  | i, d :: rest =>
      if requestDiscrete && !d.isDiscreteGpu then
        selectPhysicalDeviceFrom requestDiscrete hasSurfaces (i + 1) rest
      else
        match pickQueueFamilyFrom hasSurfaces 0 d.queueFamilies with
        | some q => some { deviceIndex := i, graphicsQueueFamily := q, presentQueueFamily := q }
        | none => selectPhysicalDeviceFrom requestDiscrete hasSurfaces (i + 1) rest

/-- `createDeviceInternal`'s device selection (vulkan_bridge.cpp:768-825):
`none` when zero physical devices exist (the `No Vulkan devices available`
throw); otherwise the loop's choice, falling back to physical device 0 with
queue family 0 for both roles when no candidate qualified. -/
def selectPhysicalDevice (requestDiscrete hasSurfaces : Bool)
    (devices : List PhysicalDevice) : Option DeviceSelection :=
  if devices.isEmpty then none
  else
    match selectPhysicalDeviceFrom requestDiscrete hasSurfaces 0 devices with
    | some sel => some sel
    | none => some { deviceIndex := 0, graphicsQueueFamily := 0, presentQueueFamily := 0 }

/-- `VkSharingMode` as chosen by `createSwapchainInternal`. -/
inductive SharingMode where
  | exclusive
  | concurrent
deriving DecidableEq

/-- The image-sharing branch of `createSwapchainInternal`
(vulkan_bridge.cpp:1018-1025): concurrent sharing across both queue families
when they differ, exclusive otherwise. -/
def swapchainImageSharingMode (graphicsQueueFamily presentQueueFamily : Nat) :
    SharingMode :=
  if graphicsQueueFamily ≠ presentQueueFamily then SharingMode.concurrent
  else SharingMode.exclusive

theorem selectPhysicalDeviceFrom_families_eq (requestDiscrete hasSurfaces : Bool)
    (devices : List PhysicalDevice) (i : Nat) (sel : DeviceSelection)
    (hsel : selectPhysicalDeviceFrom requestDiscrete hasSurfaces i devices = some sel) :
    sel.graphicsQueueFamily = sel.presentQueueFamily := by
  induction devices generalizing i with
  | nil => exact absurd hsel (by simp [selectPhysicalDeviceFrom])
  | cons d rest ih =>
      simp only [selectPhysicalDeviceFrom] at hsel
      by_cases hskip : requestDiscrete && !d.isDiscreteGpu
      · rw [if_pos hskip] at hsel
        exact ih (i + 1) hsel
      · rw [if_neg hskip] at hsel
        cases hpick : pickQueueFamilyFrom hasSurfaces 0 d.queueFamilies with
        | none =>
            rw [hpick] at hsel
            exact ih (i + 1) hsel
        | some q =>
            rw [hpick] at hsel
            cases hsel
            rfl

/-- C9. Every successful device selection records the same queue family for
graphics and present (the loop picks one family for both roles; the fallback
uses 0 for both); consequently the swapchain image-sharing branch always
chooses exclusive sharing and the concurrent branch is dead. -/
theorem device_queue_families_equal (requestDiscrete hasSurfaces : Bool)
    (devices : List PhysicalDevice) (sel : DeviceSelection)
    (hsel : selectPhysicalDevice requestDiscrete hasSurfaces devices = some sel) :
    sel.graphicsQueueFamily = sel.presentQueueFamily ∧
    swapchainImageSharingMode sel.graphicsQueueFamily sel.presentQueueFamily =
      SharingMode.exclusive := by
  have heq : sel.graphicsQueueFamily = sel.presentQueueFamily := by
    simp only [selectPhysicalDevice] at hsel
    by_cases hempty : devices.isEmpty
    · rw [if_pos hempty] at hsel
      exact absurd hsel (by simp)
    · rw [if_neg hempty] at hsel
      cases hfrom : selectPhysicalDeviceFrom requestDiscrete hasSurfaces 0 devices with
      | some s =>
          rw [hfrom] at hsel
          injection hsel with h2
          subst h2
          exact selectPhysicalDeviceFrom_families_eq requestDiscrete hasSurfaces
            devices 0 _ hfrom
      | none =>
          rw [hfrom] at hsel
          cases hsel
          rfl
  refine ⟨heq, ?_⟩
  simp [swapchainImageSharingMode, heq]

/-- Witness for C9: a single discrete device whose family 0 lacks graphics
and whose family 1 supports graphics and present is selected with queue
family 1 for both roles, giving exclusive sharing. -/
theorem device_queue_families_equal_witness :
    (DeviceSelection.mk 0 1 1).graphicsQueueFamily =
      (DeviceSelection.mk 0 1 1).presentQueueFamily ∧
    swapchainImageSharingMode (DeviceSelection.mk 0 1 1).graphicsQueueFamily
      (DeviceSelection.mk 0 1 1).presentQueueFamily = SharingMode.exclusive :=
  device_queue_families_equal true true
    [⟨true, [⟨false, true⟩, ⟨true, true⟩]⟩] ⟨0, 1, 1⟩ (by decide)

/-! ### C10: endRenderPass idempotence -/

/-- `VulkanRenderPassEncoder` (vulkan_bridge.cpp:152-155): the recording
flag, together with a count of the `vkCmdEndRenderPass` commands this
encoder has recorded into its command buffer (the buffer itself is a backend
object; only the count is observable in the model). -/
structure RenderPassEncoderState where
  recording : Bool
  endRenderPassCommands : Nat
deriving DecidableEq

/-- The pass-encoder state created by `beginRenderPassInternal`
(vulkan_bridge.cpp:1705-1707): recording set, no end command recorded yet. -/
def freshRenderPassEncoder : RenderPassEncoderState :=
  { recording := true, endRenderPassCommands := 0 }

/-- `endRenderPassInternal` (vulkan_bridge.cpp:1716-1720): a no-op unless the
encoder is recording; otherwise record `vkCmdEndRenderPass` and clear the
flag. -/
def endRenderPassInternal (p : RenderPassEncoderState) : RenderPassEncoderState :=
  if p.recording then
    { recording := false, endRenderPassCommands := p.endRenderPassCommands + 1 }
  else p

/-- `n` successive `endRenderPassInternal` calls. -/
def iterEndRenderPass : Nat → RenderPassEncoderState → RenderPassEncoderState
  | 0, p => p
  | n + 1, p => iterEndRenderPass n (endRenderPassInternal p)

theorem endRenderPass_stable (p : RenderPassEncoderState)
    (h : p.recording = false) : endRenderPassInternal p = p := by
  simp [endRenderPassInternal, h]

theorem iterEndRenderPass_stable (n : Nat) (p : RenderPassEncoderState)
    (h : p.recording = false) : iterEndRenderPass n p = p := by
  induction n with
  | zero => rfl
  | succ m ih =>
      simp only [iterEndRenderPass, endRenderPass_stable p h]
      exact ih

/-- C10. On an encoder whose recording flag is set, the first
`endRenderPassInternal` call clears the flag and records the end-render-pass
command; every further call is a no-op, and starting from the state
`beginRenderPassInternal` creates, any number of calls records the
end-render-pass command at most once. -/
theorem endRenderPass_idempotent (p : RenderPassEncoderState)
    (h : p.recording = true) :
    (endRenderPassInternal p).recording = false ∧
    (endRenderPassInternal p).endRenderPassCommands = p.endRenderPassCommands + 1 ∧
    (∀ n, iterEndRenderPass n (endRenderPassInternal p) = endRenderPassInternal p) ∧
    (∀ n, (iterEndRenderPass n freshRenderPassEncoder).endRenderPassCommands ≤ 1) := by
  have hend : endRenderPassInternal p =
      { recording := false, endRenderPassCommands := p.endRenderPassCommands + 1 } := by
    simp [endRenderPassInternal, h]
  refine ⟨by rw [hend], by rw [hend], ?_, ?_⟩
  · intro n
    exact iterEndRenderPass_stable n _ (by rw [hend])
  · intro n
    cases n with
    | zero => exact Nat.zero_le 1
    | succ m =>
        have : iterEndRenderPass (m + 1) freshRenderPassEncoder =
            { recording := false, endRenderPassCommands := 1 } := by
          simp only [iterEndRenderPass]
          exact iterEndRenderPass_stable m _ rfl
        rw [this]

/-- Witness for C10 at a freshly begun encoder and five successive end
calls. -/
theorem endRenderPass_idempotent_witness :
    (endRenderPassInternal ⟨true, 0⟩).recording = false ∧
    (endRenderPassInternal ⟨true, 0⟩).endRenderPassCommands = 0 + 1 ∧
    iterEndRenderPass 5 (endRenderPassInternal ⟨true, 0⟩) =
      endRenderPassInternal ⟨true, 0⟩ ∧
    (iterEndRenderPass 5 freshRenderPassEncoder).endRenderPassCommands ≤ 1 := by
  have t := endRenderPass_idempotent ⟨true, 0⟩ rfl
  exact ⟨t.1, t.2.1, t.2.2.1 5, t.2.2.2 5⟩

end VulkanBridge
